import Mathlib

/-
Shallow embedding of src/iboot/iboot.py.

The transport is modelled by a `refused` flag (whether socket.connect raises
socket.error) together with a script `chunks : List (List Nat)` of the byte
chunks successive recv calls return; recv n returns at most n bytes of the
next chunk, and an empty chunk (or an exhausted script) models the peer
having closed the connection.  Bytes are Nat, with explicit ≤ 255 / ≤ 65535
range checks where struct packing enforces them.  Python exceptions are an
explicit error component; state (the iBootInterface instance attributes
seq_num and socket, plus the bytes written so far) is threaded explicitly.
-/

namespace IBoot

/-- Kinds of Python exception that arise in iboot.py. -/
inductive PyErr
  | socketError
  | structError
  | typeError
  | keyError
deriving DecidableEq

/-- Lifecycle of the `socket` attribute of an iBootInterface. -/
inductive SockState
  | noSock       -- self.socket is None (freshly constructed interface)
  | unconnected  -- socket.socket() was created but connect was refused
  | connected
  | closedSock
deriving DecidableEq

/-- A Python value passed as a relay state: the keys of RelayCommand.STATE_MAP
are True, False and the string NO_CHANGE; `other` stands for any value that is
not a key of that dict. -/
inductive PyState
  | pyTrue
  | pyFalse
  | noChange
  | other
deriving DecidableEq

/-- The heterogeneous return value of iBootInterface.get_relays: None, a
bool, or a list of bools. -/
inductive PyRet
  | pyNone
  | pyBool (b : Bool)
  | pyList (l : List Bool)
deriving DecidableEq

/-- Python truthiness of a PyRet value: None and empty lists are falsy. -/
def truthy : PyRet → Bool
  | .pyNone => false
  | .pyBool b => b
  | .pyList l => !l.isEmpty

/-- The mutable attributes of an iBootInterface instance (iboot.py lines
182-192), plus `sent`, the concatenation-in-order of all byte strings passed
to socket.sendall (so that theorems can speak about what went on the wire).
ip, port and the logger are not modelled: no claim depends on them. -/
structure IFace where
  username : List Nat
  password : List Nat
  numRelays : Nat
  seqNum : Option Nat
  sock : SockState
  sent : List (List Nat)
deriving DecidableEq

/-- iBootInterface.__init__ (iboot.py lines 182-192): seq_num and socket
start as None. -/
def freshIFace (u p : List Nat) (n : Nat) : IFace :=
  { username := u, password := p, numRelays := n,
    seqNum := none, sock := .noSock, sent := [] }

/-- HELLO_STR = 'hello-000' (iboot.py line 7) as ASCII bytes. -/
def HELLO : List Nat := [104, 101, 108, 108, 111, 45, 48, 48, 48]

/-- COMMAND_MAP (iboot.py lines 11-19). -/
def COMMAND_MAP : List (String × Nat) :=
  [("NULL", 0), ("SET", 1), ("GET", 2), ("IO", 3),
   ("KEEPALIVE", 4), ("RSS", 5), ("RCU", 6)]

/-- IOCommand.DESCRIPTOR_MAP (iboot.py lines 88-97). -/
def IO_DESCRIPTOR_MAP : List (String × Nat) :=
  [("NULL", 0), ("CHANGE_RELAY", 1), ("CHANGE_RELAYS", 2), ("GET_RELAY", 3),
   ("GET_RELAYS", 4), ("GET_INPUT", 5), ("GET_INPUTS", 6), ("PULSE_RELAY", 7)]

/-- The command catalog: the (COMMAND, DESCRIPTOR) class constants of the four
concrete command classes ChangeRelayCommand, ChangeRelaysCommand,
GetRelaysRequest and PulseRelayRequest. -/
def CATALOG : List (String × String) :=
  [("IO", "CHANGE_RELAY"), ("IO", "CHANGE_RELAYS"),
   ("IO", "GET_RELAYS"), ("IO", "PULSE_RELAY")]

/-- Python dict[key]: raises KeyError when the key is missing. -/
def dictGet (m : List (String × Nat)) (k : String) : Except PyErr Nat :=
  match m.lookup k with
  | some v => .ok v
  | none => .error .keyError

/-- struct format '21s': truncate to 21 bytes and pad with zero bytes to
exactly 21. -/
def pack21 (s : List Nat) : List Nat :=
  s.take 21 ++ List.replicate (21 - s.length) 0

/-- HEADER_STRUCT.pack for layout '<B21s21sBBH' (iboot.py line 9):
little-endian, 1 + 21 + 21 + 1 + 1 + 2 bytes; struct.error when a numeric
field is out of range. -/
def headerPack (cmd : Nat) (user pwd : List Nat) (desc reserved seq : Nat) :
    Except PyErr (List Nat) :=
  if cmd ≤ 255 ∧ desc ≤ 255 ∧ reserved ≤ 255 ∧ seq ≤ 65535 then
    .ok ([cmd] ++ pack21 user ++ pack21 pwd ++
         [desc, reserved, seq % 256, seq / 256])
  else
    .error .structError

/-- iBootInterface.get_seq_num (iboot.py lines 194-197): returns the current
value and post-increments.  When seq_num is still None, `self.seq_num += 1`
raises TypeError. -/
def get_seq_num (st : IFace) : IFace × Except PyErr Nat :=
  match st.seqNum with
  | none => (st, .error .typeError)
  | some s => ({ st with seqNum := some (s + 1) }, .ok s)

/-- iBootInterface.increment_seq_num (iboot.py lines 199-200). -/
def increment_seq_num (st : IFace) : IFace × Except PyErr Unit :=
  match st.seqNum with
  | none => (st, .error .typeError)
  | some s => ({ st with seqNum := some (s + 1) }, .ok ())

/-- DXPCommand._build_header (iboot.py lines 33-48).  The arguments of
HEADER_STRUCT.pack are evaluated left to right: the COMMAND_MAP and
DESCRIPTOR_MAP lookups, then get_seq_num, then the pack itself.  The
class-constant presence checks on lines 34-41 always pass for the four
concrete command classes and are omitted. -/
def build_header (cmdName descName : String) (dmap : List (String × Nat))
    (st : IFace) : IFace × Except PyErr (List Nat) :=
  match dictGet COMMAND_MAP cmdName with
  | .error e => (st, .error e)
  | .ok c =>
    match dictGet dmap descName with
    | .error e => (st, .error e)
    | .ok d =>
      match get_seq_num st with
      | (st1, .error e) => (st1, .error e)
      | (st1, .ok s) => (st1, headerPack c st1.username st1.password d 0 s)

/-- RelayCommand.STATE_MAP lookup (iboot.py lines 101-105): True → 1,
False → 0, NO_CHANGE → 2; anything else raises KeyError. -/
def stateMap : PyState → Except PyErr Nat
  | .pyTrue => .ok 1
  | .pyFalse => .ok 0
  | .noChange => .ok 2
  | .other => .error .keyError

/-- struct '<BB'.pack (ChangeRelayCommand.PAYLOAD_STRUCT, iboot.py line 113). -/
def packBB (a b : Nat) : Except PyErr (List Nat) :=
  if a ≤ 255 ∧ b ≤ 255 then .ok [a, b] else .error .structError

/-- struct '<BBH'.pack (PulseRelayRequest.PAYLOAD_STRUCT, iboot.py line 168). -/
def packBBH (a b w : Nat) : Except PyErr (List Nat) :=
  if a ≤ 255 ∧ b ≤ 255 ∧ w ≤ 65535 then
    .ok [a, b, w % 256, w / 256]
  else
    .error .structError

/-- socket.sendall: succeeds on a connected socket, recording the bytes;
raises socket.error otherwise. -/
def sendall (st : IFace) (bytes : List Nat) : IFace × Except PyErr Unit :=
  match st.sock with
  | .connected => ({ st with sent := st.sent ++ [bytes] }, .ok ())
  | _ => (st, .error .socketError)

/-- socket.recv n against the script: returns at most n bytes of the next
chunk; an empty chunk or an exhausted script is the peer having closed. -/
def recv (n : Nat) (chunks : List (List Nat)) : List Nat × List (List Nat) :=
  match chunks with
  | [] => ([], [])
  | c :: rest => (c.take n, rest)

/-- The result of a run: final interface state, remaining recv script, and
the Python return value or uncaught exception. -/
abbrev Res (α : Type) := IFace × List (List Nat) × Except PyErr α

/-- DXPCommand._get_boolean_response together with _parse_bool (iboot.py
lines 62-71): recv(1); empty → False; otherwise increment the sequence
number then return `not struct.unpack('?', byte)`, i.e. byte == 0. -/
def getBooleanResponse (st : IFace) (chunks : List (List Nat)) : Res Bool :=
  let (resp, rest) := recv 1 chunks
  match resp with
  | [] => (st, rest, .ok false)
  | b :: _ =>
    match increment_seq_num st with
    | (st1, .error e) => (st1, rest, .error e)
    | (st1, .ok _) => (st1, rest, .ok (b == 0))

/-- ChangeRelayCommand.do_request (iboot.py lines 73-78, 111-122): header,
payload (STATE_MAP lookup happens while evaluating pack's arguments, so a
KeyError precedes any struct.error of the pack), one sendall of
header + payload, then the boolean response. -/
def changeRelay_doRequest (relay : Nat) (stv : PyState) (st : IFace)
    (chunks : List (List Nat)) : Res Bool :=
  match build_header "IO" "CHANGE_RELAY" IO_DESCRIPTOR_MAP st with
  | (st1, .error e) => (st1, chunks, .error e)
  | (st1, .ok header) =>
    match stateMap stv with
    | .error e => (st1, chunks, .error e)
    | .ok code =>
      match packBB relay code with
      | .error e => (st1, chunks, .error e)
      | .ok payload =>
        match sendall st1 (header ++ payload) with
        | (st2, .error e) => (st2, chunks, .error e)
        | (st2, .ok _) => getBooleanResponse st2 chunks

/-- PulseRelayRequest.do_request (iboot.py lines 73-78, 166-178). -/
def pulseRelay_doRequest (relay : Nat) (stv : PyState) (width : Nat)
    (st : IFace) (chunks : List (List Nat)) : Res Bool :=
  match build_header "IO" "PULSE_RELAY" IO_DESCRIPTOR_MAP st with
  | (st1, .error e) => (st1, chunks, .error e)
  | (st1, .ok header) =>
    match stateMap stv with
    | .error e => (st1, chunks, .error e)
    | .ok code =>
      match packBBH relay code width with
      | .error e => (st1, chunks, .error e)
      | .ok payload =>
        match sendall st1 (header ++ payload) with
        | (st2, .error e) => (st2, chunks, .error e)
        | (st2, .ok _) => getBooleanResponse st2 chunks

/-- GetRelaysRequest._get_response (iboot.py lines 156-163): recv(num_relays);
empty → None; otherwise increment the sequence number and map each byte to
(byte == 1). -/
def getRelays_getResponse (st : IFace) (chunks : List (List Nat)) : Res PyRet :=
  let (resp, rest) := recv st.numRelays chunks
  match resp with
  | [] => (st, rest, .ok .pyNone)
  | _ :: _ =>
    match increment_seq_num st with
    | (st1, .error e) => (st1, rest, .error e)
    | (st1, .ok _) => (st1, rest, .ok (.pyList (resp.map (fun b => b == 1))))

/-- GetRelaysRequest.do_request via _do_payloadless_request (iboot.py lines
80-83, 150-163): header only, no payload. -/
def getRelays_doRequest (st : IFace) (chunks : List (List Nat)) : Res PyRet :=
  match build_header "IO" "GET_RELAYS" IO_DESCRIPTOR_MAP st with
  | (st1, .error e) => (st1, chunks, .error e)
  | (st1, .ok header) =>
    match sendall st1 header with
    | (st2, .error e) => (st2, chunks, .error e)
    | (st2, .ok _) => getRelays_getResponse st2 chunks

/-- iBootInterface._get_initial_seq_num (iboot.py lines 219-226): recv(2);
empty → False; struct.unpack('H', ·) needs exactly 2 bytes, so a 1-byte
read raises struct.error; otherwise seq_num := (little-endian u16) + 1. -/
def getInitialSeqNum (st : IFace) (chunks : List (List Nat)) : Res Bool :=
  let (resp, rest) := recv 2 chunks
  match resp with
  | [] => (st, rest, .ok false)
  | [_] => (st, rest, .error .structError)
  | b0 :: b1 :: _ =>
    ({ st with seqNum := some (b0 + 256 * b1 + 1) }, rest, .ok true)

/-- iBootInterface.connect (iboot.py lines 202-217): a fresh socket is
created (replacing self.socket), connect refusal is caught and returns
False; then the greeting is sent and the initial sequence number read.  Only
socket.error is caught around the send/handshake, so the struct.error of a
1-byte handshake read propagates. -/
def connect (refused : Bool) (st : IFace) (chunks : List (List Nat)) : Res Bool :=
  let st1 := { st with sock := .unconnected }
  if refused then
    (st1, chunks, .ok false)
  else
    let st2 := { st1 with sock := .connected }
    match sendall st2 HELLO with
    | (st3, .error _) => (st3, chunks, .ok false)
    | (st3, .ok _) => getInitialSeqNum st3 chunks

/-- iBootInterface.disconnect (iboot.py lines 228-232): close, all errors
swallowed (on a None socket the AttributeError is swallowed too). -/
def disconnect (st : IFace) : IFace :=
  match st.sock with
  | .noSock => st
  | _ => { st with sock := .closedSock }

/-- iBootInterface.switch (iboot.py lines 234-244): connect (return value
ignored, and an exception from inside connect propagates, since connect is
called before the try block); the request runs under
try/except socket.error/finally disconnect. -/
def switch (refused : Bool) (chunks : List (List Nat)) (st : IFace)
    (relay : Nat) (stv : PyState) : Res Bool :=
  match connect refused st chunks with
  | (st1, ch1, .error e) => (st1, ch1, .error e)
  | (st1, ch1, .ok _) =>
    match changeRelay_doRequest relay stv st1 ch1 with
    | (st2, ch2, .ok b) => (disconnect st2, ch2, .ok b)
    | (st2, ch2, .error .socketError) => (disconnect st2, ch2, .ok false)
    | (st2, ch2, .error e) => (disconnect st2, ch2, .error e)

/-- iBootInterface.switch_multiple (iboot.py lines 246-269).  The loop body
constructs ChangeRelayCommand(relay, new_state) — iboot.py line 257 omits the
interface argument — so the three-parameter constructor raises TypeError on
the first entry, before the try block, and the exception propagates without
disconnect being reached.  With an empty dict the loop body never runs and
the function disconnects and returns True. -/
def switch_multiple (refused : Bool) (chunks : List (List Nat)) (st : IFace)
    (entries : List (Nat × PyState)) : Res Bool :=
  match connect refused st chunks with
  | (st1, ch1, .error e) => (st1, ch1, .error e)
  | (st1, ch1, .ok _) =>
    match entries with
    | [] => (disconnect st1, ch1, .ok true)
    | _ :: _ => (st1, ch1, .error .typeError)

/-- iBootInterface.get_relays (iboot.py lines 271-280): like switch, with the
GetRelays round-trip, returning False on socket.error. -/
def get_relays (refused : Bool) (chunks : List (List Nat)) (st : IFace) :
    Res PyRet :=
  match connect refused st chunks with
  | (st1, ch1, .error e) => (st1, ch1, .error e)
  | (st1, ch1, .ok _) =>
    match getRelays_doRequest st1 ch1 with
    | (st2, ch2, .ok v) => (disconnect st2, ch2, .ok v)
    | (st2, ch2, .error .socketError) => (disconnect st2, ch2, .ok (.pyBool false))
    | (st2, ch2, .error e) => (disconnect st2, ch2, .error e)

/-- iBootInterface.pulse_relay (iboot.py lines 282-291). -/
def pulse_relay (refused : Bool) (chunks : List (List Nat)) (st : IFace)
    (relay : Nat) (stv : PyState) (length : Nat) : Res Bool :=
  match connect refused st chunks with
  | (st1, ch1, .error e) => (st1, ch1, .error e)
  | (st1, ch1, .ok _) =>
    match pulseRelay_doRequest relay stv length st1 ch1 with
    | (st2, ch2, .ok b) => (disconnect st2, ch2, .ok b)
    | (st2, ch2, .error .socketError) => (disconnect st2, ch2, .ok false)
    | (st2, ch2, .error e) => (disconnect st2, ch2, .error e)

/-- The ASCII bytes of 'admin', used as a concrete credential in witnesses. -/
def adminBytes : List Nat := [97, 100, 109, 105, 110]

end IBoot

namespace IBoot

/-- pack21 always produces exactly 21 bytes, whatever the input length. -/
theorem pack21_length (s : List Nat) : (pack21 s).length = 21 := by
  simp [pack21]
  omega

/-- C1: the claim's scenario, evaluated on the code: handshake response bytes
0x05 0x00 do initialize the sequence counter to 6 and the first command's
ack does arrive successfully, but after that successful boolean ack the
counter is 8, not 7 — get_seq_num post-increments when the header is built
and _get_boolean_response increments again on receipt of the ack byte. -/
theorem c1_counterexample :
    (connect false (freshIFace adminBytes adminBytes 3) [[5, 0], [0]]).1.seqNum
      = some 6 ∧
    (switch false [[5, 0], [0]] (freshIFace adminBytes adminBytes 3) 1
      .pyTrue).2.2 = .ok true ∧
    (switch false [[5, 0], [0]] (freshIFace adminBytes adminBytes 3) 1
      .pyTrue).1.seqNum = some 8 ∧
    (some 8 : Option Nat) ≠ some 7 :=
  ⟨rfl, rfl, rfl, by decide⟩

/-- C2: evaluated at the failing input: with the connection refused, switch on
a freshly constructed interface (seq_num still None) raises TypeError out of
get_seq_num — connect's False return is ignored — instead of returning
false; only when a previous operation already left a sequence number on the
interface does the refused-connection switch return false via the caught
socket.error. -/
theorem c2_code_evaluation :
    (switch true [] (freshIFace adminBytes adminBytes 3) 1 .pyTrue).2.2
      = .error .typeError ∧
    (switch true [] { freshIFace adminBytes adminBytes 3 with seqNum := some 7 }
      1 .pyTrue).2.2 = .ok false :=
  ⟨rfl, rfl⟩

/-- C3: evaluated at the failing input: with a working transport and a
one-entry mapping, switch_multiple raises TypeError (the ChangeRelayCommand
constructor call on line 257 omits the interface argument) before sending any
command — only the greeting ever goes on the wire — while the empty mapping
returns True without any round-trip. -/
theorem c3_code_evaluation :
    (switch_multiple false [[5, 0], [0]] (freshIFace adminBytes adminBytes 3)
      [(1, .pyTrue)]).2.2 = .error .typeError ∧
    (switch_multiple false [[5, 0], [0]] (freshIFace adminBytes adminBytes 3)
      [(1, .pyTrue)]).1.sent = [HELLO] ∧
    (switch_multiple false [[5, 0]] (freshIFace adminBytes adminBytes 3)
      []).2.2 = .ok true :=
  ⟨rfl, rfl, rfl⟩

/-- C4: evaluated at the failing inputs: switch_multiple's TypeError exit
leaves the connected socket open (disconnect is never reached), and in every
operation an exception inside the handshake (here a 1-byte handshake read)
propagates from the connect call made before the try/finally, likewise
leaving the socket open. -/
theorem c4_code_evaluation :
    (switch_multiple false [[5, 0], [0]] (freshIFace adminBytes adminBytes 3)
      [(1, .pyTrue)]).1.sock = .connected ∧
    (switch_multiple false [[5, 0], [0]] (freshIFace adminBytes adminBytes 3)
      [(1, .pyTrue)]).2.2 = .error .typeError ∧
    (switch false [[5]] (freshIFace adminBytes adminBytes 3) 1
      .pyTrue).1.sock = .connected ∧
    (switch false [[5]] (freshIFace adminBytes adminBytes 3) 1
      .pyTrue).2.2 = .error .structError :=
  ⟨rfl, rfl, rfl, rfl⟩

/-- C5: the sequence counter is an attribute of the iBootInterface object
itself and is read and written across public operations: a completed switch
leaves seq_num = 8 on the handle, and a subsequent refused-connection switch
on that same handle behaves differently (returns false) from the same call
on a fresh handle (raises TypeError), so the two operations share the
handle's counter. -/
theorem c5_counterexample :
    (freshIFace adminBytes adminBytes 3).seqNum = none ∧
    ((switch false [[5, 0], [0]] (freshIFace adminBytes adminBytes 3) 1
      .pyTrue).1).seqNum = some 8 ∧
    (switch true [] (freshIFace adminBytes adminBytes 3) 1 .pyTrue).2.2
      = .error .typeError ∧
    (switch true []
      ((switch false [[5, 0], [0]] (freshIFace adminBytes adminBytes 3) 1
        .pyTrue).1) 1 .pyTrue).2.2 = .ok false :=
  ⟨rfl, rfl, rfl, rfl⟩

/-- C10: out-of-range arguments raise to the caller instead of returning
false, because only socket.error is caught at the public boundary: a relay
index of 300 does not fit the unsigned-byte payload field (struct.error), a
pulse width of 70000 does not fit the unsigned 16-bit field (struct.error),
and a state value that is not a STATE_MAP key raises KeyError. -/
theorem c10_out_of_range_raises :
    (switch false [[5, 0]] (freshIFace adminBytes adminBytes 3) 300
      .pyTrue).2.2 = .error .structError ∧
    (pulse_relay false [[5, 0]] (freshIFace adminBytes adminBytes 3) 1
      .pyTrue 70000).2.2 = .error .structError ∧
    (switch false [[5, 0]] (freshIFace adminBytes adminBytes 3) 1
      .other).2.2 = .error .keyError :=
  ⟨rfl, rfl, rfl⟩

end IBoot

namespace IBoot

/-- C7: boolean-ack polarity is inverted: a 0x00 response byte decodes to
success (true), any nonzero byte decodes to failure (false), and an empty
read — the peer closed before one byte arrived, whether as an empty chunk or
an exhausted stream — yields failure (false). -/
theorem c7_boolean_ack_polarity (st : IFace) (m b : Nat)
    (rest : List (List Nat)) (hseq : st.seqNum = some m) (hb : b ≠ 0) :
    (getBooleanResponse st ([0] :: rest)).2.2 = .ok true ∧
    (getBooleanResponse st ([b] :: rest)).2.2 = .ok false ∧
    (getBooleanResponse st ([] :: rest)).2.2 = .ok false ∧
    (getBooleanResponse st []).2.2 = .ok false := by
  simp [getBooleanResponse, recv, increment_seq_num, hseq, hb]

/-- Witness for C7 at a concrete state and the nonzero byte 0x01. -/
theorem c7_witness :
    ({ freshIFace adminBytes adminBytes 3 with seqNum := some 6 } :
      IFace).seqNum = some 6 ∧
    (1 : Nat) ≠ 0 ∧
    ((getBooleanResponse
        { freshIFace adminBytes adminBytes 3 with seqNum := some 6 }
        [[0]]).2.2 = .ok true ∧
     (getBooleanResponse
        { freshIFace adminBytes adminBytes 3 with seqNum := some 6 }
        [[1]]).2.2 = .ok false ∧
     (getBooleanResponse
        { freshIFace adminBytes adminBytes 3 with seqNum := some 6 }
        [[]]).2.2 = .ok false ∧
     (getBooleanResponse
        { freshIFace adminBytes adminBytes 3 with seqNum := some 6 }
        []).2.2 = .ok false) :=
  ⟨rfl, by decide,
   c7_boolean_ack_polarity _ 6 1 [] rfl (by decide)⟩

/-- C8: the handshake sends the literal 9-byte greeting hello-000; a 2-byte
response is read as an unsigned little-endian 16-bit integer v and the
sequence counter is initialized to v + 1 with the handshake succeeding; a
read of fewer than 2 bytes never succeeds — an empty read returns False and
a 1-byte read raises struct.error. -/
theorem c8_handshake (st : IFace) (b0 b1 b : Nat) (rest : List (List Nat))
    (h0 : b0 ≤ 255) (h1 : b1 ≤ 255) :
    HELLO.length = 9 ∧
    HELLO = "hello-000".toList.map Char.toNat ∧
    (connect false st ([b0, b1] :: rest)).1.sent = st.sent ++ [HELLO] ∧
    (connect false st ([b0, b1] :: rest)).1.seqNum
      = some (b0 + 256 * b1 + 1) ∧
    (connect false st ([b0, b1] :: rest)).2.2 = .ok true ∧
    (connect false st ([] :: rest)).2.2 = .ok false ∧
    (connect false st ([b] :: rest)).2.2 ≠ .ok true := by
  refine ⟨rfl, by decide, rfl, rfl, rfl, rfl, ?_⟩
  intro h
  exact Except.noConfusion h

/-- Witness for C8 at the handshake bytes 0x05 0x00 on a fresh interface. -/
theorem c8_witness :
    (5 : Nat) ≤ 255 ∧ (0 : Nat) ≤ 255 ∧
    (HELLO.length = 9 ∧
     HELLO = "hello-000".toList.map Char.toNat ∧
     (connect false (freshIFace adminBytes adminBytes 3)
        [[5, 0]]).1.sent = (freshIFace adminBytes adminBytes 3).sent ++ [HELLO] ∧
     (connect false (freshIFace adminBytes adminBytes 3)
        [[5, 0]]).1.seqNum = some (5 + 256 * 0 + 1) ∧
     (connect false (freshIFace adminBytes adminBytes 3)
        [[5, 0]]).2.2 = .ok true ∧
     (connect false (freshIFace adminBytes adminBytes 3)
        [[]]).2.2 = .ok false ∧
     (connect false (freshIFace adminBytes adminBytes 3)
        [[9]]).2.2 ≠ .ok true) :=
  ⟨by decide, by decide,
   c8_handshake (freshIFace adminBytes adminBytes 3) 5 0 9 []
     (by decide) (by decide)⟩

end IBoot

namespace IBoot

/-- pack21 keeps an input of length at most 21 unchanged and pads with zero
bytes to exactly 21. -/
theorem pack21_of_le (u : List Nat) (hu : u.length ≤ 21) :
    pack21 u = u ++ List.replicate (21 - u.length) 0 := by
  unfold pack21
  rw [List.take_of_length_le hu]

/-- headerPack succeeds whenever all numeric fields are in range. -/
theorem header_ok (c d : Nat) (u p : List Nat) (s : Nat)
    (hc : c ≤ 255) (hd : d ≤ 255) (hs : s ≤ 65535) :
    headerPack c u p d 0 s
      = .ok ([c] ++ pack21 u ++ pack21 p ++ [d, 0, s % 256, s / 256]) := by
  unfold headerPack
  rw [if_pos ⟨hc, hd, by norm_num, hs⟩]

/-- A packed header is 1 + 21 + 21 + 4 = 47 bytes. -/
theorem header_len (c : Nat) (u p : List Nat) (d r x y : Nat) :
    ([c] ++ pack21 u ++ pack21 p ++ [d, r, x, y]).length = 47 := by
  simp [pack21_length]

/-- Byte 44 of a packed header is the reserved field. -/
theorem header_get44 (c : Nat) (u p : List Nat) (d r x y : Nat) :
    ([c] ++ pack21 u ++ pack21 p ++ [d, r, x, y]).get? 44 = some r := by
  rw [List.get?_eq_getElem?]
  rw [List.getElem?_append_right (by simp [pack21_length])]
  simp [pack21_length]

/-- build_header evaluated at a state whose sequence number is set: the
counter advances by one and the bytes come from headerPack at the
pre-increment value. -/
theorem build_header_eq (cn dn : String) (dmap : List (String × Nat))
    (st : IFace) (s c d : Nat) (hseq : st.seqNum = some s)
    (hc : dictGet COMMAND_MAP cn = .ok c) (hd : dictGet dmap dn = .ok d) :
    build_header cn dn dmap st
      = ({ st with seqNum := some (s + 1) },
         headerPack c st.username st.password d 0 s) := by
  unfold build_header
  rw [hc, hd]
  simp [get_seq_num, hseq]

/-- C6: for every (command, descriptor) pair of the catalog and any
credentials of at most 21 bytes, the encoded header is exactly 47 bytes in
the little-endian layout command, username padded with zero bytes to 21,
password padded with zero bytes to 21, descriptor, reserved 0, and the
16-bit sequence number low byte first; byte 44 (the reserved field) is
always 0. -/
theorem c6_header_layout (cn dn : String) (hmem : (cn, dn) ∈ CATALOG)
    (st : IFace) (s : Nat) (hseq : st.seqNum = some s) (hs : s ≤ 65535)
    (hu : st.username.length ≤ 21) (hp : st.password.length ≤ 21) :
    ∃ c d h,
      dictGet COMMAND_MAP cn = .ok c ∧
      dictGet IO_DESCRIPTOR_MAP dn = .ok d ∧
      (build_header cn dn IO_DESCRIPTOR_MAP st).2 = .ok h ∧
      h = [c] ++ (st.username ++ List.replicate (21 - st.username.length) 0)
            ++ (st.password ++ List.replicate (21 - st.password.length) 0)
            ++ [d, 0, s % 256, s / 256] ∧
      h.length = 47 ∧
      h.get? 44 = some 0 := by
  simp only [CATALOG, List.mem_cons, List.not_mem_nil, or_false,
    Prod.mk.injEq] at hmem
  rcases hmem with ⟨rfl, rfl⟩ | ⟨rfl, rfl⟩ | ⟨rfl, rfl⟩ | ⟨rfl, rfl⟩
  · refine ⟨3, 1, [3] ++ pack21 st.username ++ pack21 st.password ++
        [1, 0, s % 256, s / 256], rfl, rfl, ?_, ?_,
        header_len 3 st.username st.password 1 0 (s % 256) (s / 256),
        header_get44 3 st.username st.password 1 0 (s % 256) (s / 256)⟩
    · rw [build_header_eq "IO" "CHANGE_RELAY" IO_DESCRIPTOR_MAP st s 3 1 hseq rfl rfl]
      exact header_ok 3 1 st.username st.password s (by norm_num) (by norm_num) hs
    · rw [pack21_of_le _ hu, pack21_of_le _ hp]
  · refine ⟨3, 2, [3] ++ pack21 st.username ++ pack21 st.password ++
        [2, 0, s % 256, s / 256], rfl, rfl, ?_, ?_,
        header_len 3 st.username st.password 2 0 (s % 256) (s / 256),
        header_get44 3 st.username st.password 2 0 (s % 256) (s / 256)⟩
    · rw [build_header_eq "IO" "CHANGE_RELAYS" IO_DESCRIPTOR_MAP st s 3 2 hseq rfl rfl]
      exact header_ok 3 2 st.username st.password s (by norm_num) (by norm_num) hs
    · rw [pack21_of_le _ hu, pack21_of_le _ hp]
  · refine ⟨3, 4, [3] ++ pack21 st.username ++ pack21 st.password ++
        [4, 0, s % 256, s / 256], rfl, rfl, ?_, ?_,
        header_len 3 st.username st.password 4 0 (s % 256) (s / 256),
        header_get44 3 st.username st.password 4 0 (s % 256) (s / 256)⟩
    · rw [build_header_eq "IO" "GET_RELAYS" IO_DESCRIPTOR_MAP st s 3 4 hseq rfl rfl]
      exact header_ok 3 4 st.username st.password s (by norm_num) (by norm_num) hs
    · rw [pack21_of_le _ hu, pack21_of_le _ hp]
  · refine ⟨3, 7, [3] ++ pack21 st.username ++ pack21 st.password ++
        [7, 0, s % 256, s / 256], rfl, rfl, ?_, ?_,
        header_len 3 st.username st.password 7 0 (s % 256) (s / 256),
        header_get44 3 st.username st.password 7 0 (s % 256) (s / 256)⟩
    · rw [build_header_eq "IO" "PULSE_RELAY" IO_DESCRIPTOR_MAP st s 3 7 hseq rfl rfl]
      exact header_ok 3 7 st.username st.password s (by norm_num) (by norm_num) hs
    · rw [pack21_of_le _ hu, pack21_of_le _ hp]

/-- Witness for C6 at the ChangeRelay catalog entry, 5-byte credentials and
sequence number 6. -/
theorem c6_witness :
    ("IO", "CHANGE_RELAY") ∈ CATALOG ∧
    ({ freshIFace adminBytes adminBytes 3 with seqNum := some 6 } :
      IFace).seqNum = some 6 ∧
    (6 : Nat) ≤ 65535 ∧
    ({ freshIFace adminBytes adminBytes 3 with seqNum := some 6 } :
      IFace).username.length ≤ 21 ∧
    ({ freshIFace adminBytes adminBytes 3 with seqNum := some 6 } :
      IFace).password.length ≤ 21 ∧
    (∃ c d h,
      dictGet COMMAND_MAP "IO" = .ok c ∧
      dictGet IO_DESCRIPTOR_MAP "CHANGE_RELAY" = .ok d ∧
      (build_header "IO" "CHANGE_RELAY" IO_DESCRIPTOR_MAP
        { freshIFace adminBytes adminBytes 3 with seqNum := some 6 }).2
        = .ok h ∧
      h = [c] ++ (adminBytes ++ List.replicate 16 0)
            ++ (adminBytes ++ List.replicate 16 0)
            ++ [d, 0, 6, 0] ∧
      h.length = 47 ∧
      h.get? 44 = some 0) :=
  ⟨by decide, rfl, by decide, by decide, by decide,
   c6_header_layout "IO" "CHANGE_RELAY" (by decide)
     { freshIFace adminBytes adminBytes 3 with seqNum := some 6 } 6
     rfl (by decide) (by decide) (by decide)⟩

/-- C9: get_relays decodes one boolean per response byte in order, byte 1
mapping to true and any other byte to false, with one boolean per configured
relay when the device answers with num_relays bytes; an empty response gives
the falsy None, and a refused connection (on an interface holding a sequence
number) gives False. -/
theorem c9_get_relays (u p : List Nat) (n b0 b1 : Nat) (resp : List Nat)
    (hn : 0 < n) (hlen : resp.length = n)
    (hv : b0 + 256 * b1 + 1 ≤ 65535) :
    (get_relays false [[b0, b1], resp] (freshIFace u p n)).2.2
      = .ok (.pyList (resp.map (fun b => b == 1))) ∧
    (resp.map (fun b => b == 1)).length = n ∧
    (get_relays false [[b0, b1], []] (freshIFace u p n)).2.2 = .ok .pyNone ∧
    truthy .pyNone = false ∧
    (get_relays true [] { freshIFace u p n with seqNum := some 6 }).2.2
      = .ok (.pyBool false) := by
  have hcmd : dictGet COMMAND_MAP "IO" = .ok 3 := rfl
  have hdesc : dictGet IO_DESCRIPTOR_MAP "GET_RELAYS" = .ok 4 := rfl
  refine ⟨?_, by simp [hlen], ?_, rfl, rfl⟩
  · rcases resp with _ | ⟨r, rs⟩
    · simp at hlen; omega
    · have htake : (r :: rs).take n = r :: rs :=
        List.take_of_length_le (le_of_eq hlen)
      have htakeb : ((r :: rs).map (fun b => b == 1)).take n
          = (r :: rs).map (fun b => b == 1) :=
        List.take_of_length_le (by
          simp only [List.length_cons] at hlen
          simp only [List.length_map, List.length_cons]
          omega)
      simp [get_relays, connect, sendall, getInitialSeqNum, recv,
        getRelays_doRequest, build_header, hcmd, hdesc, get_seq_num,
        headerPack, hv, getRelays_getResponse, increment_seq_num, freshIFace,
        htake, htakeb, disconnect]
  · simp [get_relays, connect, sendall, getInitialSeqNum, recv,
      getRelays_doRequest, build_header, hcmd, hdesc, get_seq_num,
      headerPack, hv, getRelays_getResponse, increment_seq_num, freshIFace,
      disconnect]

/-- Witness for C9 at relay count 3 and response bytes 0x01 0x00 0x01, the
end-to-end scenario of the claim. -/
theorem c9_witness :
    (0 : Nat) < 3 ∧ ([1, 0, 1] : List Nat).length = 3 ∧
    5 + 256 * 0 + 1 ≤ 65535 ∧
    ((get_relays false [[5, 0], [1, 0, 1]]
        (freshIFace adminBytes adminBytes 3)).2.2
        = .ok (.pyList [true, false, true]) ∧
     ([true, false, true] : List Bool).length = 3 ∧
     (get_relays false [[5, 0], []]
        (freshIFace adminBytes adminBytes 3)).2.2 = .ok .pyNone ∧
     truthy .pyNone = false ∧
     (get_relays true []
        { freshIFace adminBytes adminBytes 3 with seqNum := some 6 }).2.2
        = .ok (.pyBool false)) :=
  ⟨by decide, by decide, by decide,
   c9_get_relays adminBytes adminBytes 3 5 0 [1, 0, 1]
     (by decide) (by decide) (by decide)⟩

/-- C1 (amended): the sequence counter is initialized to (handshake value)
+ 1 and the first header carries that value on the wire, but a successfully
completed command advances the counter by exactly 2, not 1: once when the
header is built and once more when the ack byte is received, so after the
first successful ack the counter is (handshake value) + 3. -/
theorem c1_amended_seq (u p : List Nat) (n relay b0 b1 : Nat)
    (hr : relay ≤ 255) (hv : b0 + 256 * b1 + 1 ≤ 65535) :
    (connect false (freshIFace u p n) [[b0, b1], [0]]).1.seqNum
      = some (b0 + 256 * b1 + 1) ∧
    (switch false [[b0, b1], [0]] (freshIFace u p n) relay .pyTrue).2.2
      = .ok true ∧
    (switch false [[b0, b1], [0]] (freshIFace u p n) relay .pyTrue).1.sent
      = [HELLO, [3] ++ pack21 u ++ pack21 p ++
          [1, 0, (b0 + 256 * b1 + 1) % 256, (b0 + 256 * b1 + 1) / 256]
          ++ [relay, 1]] ∧
    (switch false [[b0, b1], [0]] (freshIFace u p n) relay .pyTrue).1.seqNum
      = some (b0 + 256 * b1 + 3) := by
  have hcmd : dictGet COMMAND_MAP "IO" = .ok 3 := rfl
  have hdesc : dictGet IO_DESCRIPTOR_MAP "CHANGE_RELAY" = .ok 1 := rfl
  refine ⟨rfl, ?_, ?_, ?_⟩ <;>
  · simp [switch, connect, sendall, getInitialSeqNum, recv,
      changeRelay_doRequest, build_header, hcmd, hdesc, get_seq_num,
      headerPack, hv, hr, stateMap, packBB, getBooleanResponse,
      increment_seq_num, freshIFace, disconnect]
    try omega

/-- Witness for C1 (amended) at handshake bytes 0x05 0x00 and relay 1: the
counter is initialized to 6, the header carries 6, and after the successful
ack the counter is 8. -/
theorem c1_amended_witness :
    (1 : Nat) ≤ 255 ∧ 5 + 256 * 0 + 1 ≤ 65535 ∧
    ((connect false (freshIFace adminBytes adminBytes 3)
        [[5, 0], [0]]).1.seqNum = some 6 ∧
     (switch false [[5, 0], [0]] (freshIFace adminBytes adminBytes 3) 1
        .pyTrue).2.2 = .ok true ∧
     (switch false [[5, 0], [0]] (freshIFace adminBytes adminBytes 3) 1
        .pyTrue).1.sent
        = [HELLO, [3] ++ pack21 adminBytes ++ pack21 adminBytes ++
            [1, 0, 6, 0] ++ [1, 1]] ∧
     (switch false [[5, 0], [0]] (freshIFace adminBytes adminBytes 3) 1
        .pyTrue).1.seqNum = some 8) :=
  ⟨by decide, by decide,
   c1_amended_seq adminBytes adminBytes 3 1 5 0 (by decide) (by decide)⟩

/-- C5 (amended): the sequence counter and socket are attributes of the
iBootInterface object itself, shared by all public operations on that
handle: under a refused connection a switch on a handle whose counter is
unset raises TypeError, while on a handle whose counter was set (for
instance by an earlier operation) it returns false and leaves the counter
incremented on the handle. -/
theorem c5_amended_shared_counter (st : IFace) (relay : Nat) :
    (st.seqNum = none →
      (switch true [] st relay .pyTrue).2.2 = .error .typeError) ∧
    (∀ m, st.seqNum = some m → m ≤ 65535 → relay ≤ 255 →
      (switch true [] st relay .pyTrue).2.2 = .ok false ∧
      (switch true [] st relay .pyTrue).1.seqNum = some (m + 1)) := by
  have hcmd : dictGet COMMAND_MAP "IO" = .ok 3 := rfl
  have hdesc : dictGet IO_DESCRIPTOR_MAP "CHANGE_RELAY" = .ok 1 := rfl
  constructor
  · intro h
    simp [switch, connect, changeRelay_doRequest, build_header, hcmd, hdesc,
      get_seq_num, h, stateMap, packBB, sendall, disconnect]
  · intro m hm hms hr
    constructor <;>
    simp [switch, connect, changeRelay_doRequest, build_header, hcmd, hdesc,
      get_seq_num, hm, headerPack, hms, hr, stateMap, packBB, sendall,
      disconnect]

/-- Witness for C5 (amended): on a fresh handle the refused switch raises
TypeError; on a handle carrying sequence number 7 it returns false and
leaves 8 on the handle. -/
theorem c5_amended_witness :
    ((switch true [] (freshIFace adminBytes adminBytes 3) 1 .pyTrue).2.2
       = .error .typeError) ∧
    ((switch true [] { freshIFace adminBytes adminBytes 3 with
        seqNum := some 7 } 1 .pyTrue).2.2 = .ok false ∧
     (switch true [] { freshIFace adminBytes adminBytes 3 with
        seqNum := some 7 } 1 .pyTrue).1.seqNum = some 8) :=
  ⟨(c5_amended_shared_counter (freshIFace adminBytes adminBytes 3) 1).1 rfl,
   (c5_amended_shared_counter
      { freshIFace adminBytes adminBytes 3 with seqNum := some 7 } 1).2 7
      rfl (by decide) (by decide)⟩

end IBoot
